import Mathlib

/-!
Verification of `myModule.py` (SimCSE-reproduce).

The repository is a single PyTorch module defining contrastive-loss
modules and model wrappers.  We shallowly embed it in Lean:

* scalars are `ℚ`; the numeric torch kernels that are external to the
  repository (`F.cosine_similarity` on a pair of vectors, `exp`, `log`,
  `sqrt`) are abstracted into a `Kernels` record, so every theorem holds
  for an arbitrary interpretation of those library primitives while the
  own code of the repository (broadcasting layout, labels, loss
  assembly, shape checks, control flow) is translated exactly;
* plain 2-D tensors of the pure loss modules are nested lists
  (`T2Q`); tensors whose dynamic rank the code inspects (`.ndim`) are a
  `shape`/flat-`data` record `Ten`;
* Python exceptions are an `Except PyErr` result.
-/

/-- Python exceptions that the embedded code can raise. -/
inductive PyErr where
  | notImplementedError (msg : String)
  | typeError (msg : String)
  | unboundLocalError (name : String)
  | attributeError (msg : String)
  | runtimeError (msg : String)
deriving DecidableEq, Repr

/-- The numeric torch kernels used by the repository but defined by the
torch library, not by the repository: vector cosine similarity, `exp`,
`log` and `sqrt`.  All repository-level theorems are proved for every
interpretation `K : Kernels`. -/
structure Kernels where
  csim : List ℚ → List ℚ → ℚ
  expf : ℚ → ℚ
  logf : ℚ → ℚ
  sqrtf : ℚ → ℚ

/-- A concrete instantiation of the kernels, used to evaluate the
development on closed inputs (cosine replaced by a dot product, `exp`,
`log`, `sqrt` by simple rational functions). -/
def K0 : Kernels :=
  ⟨fun a b => ((a.zip b).map fun p => p.1 * p.2).sum, fun x => x + 1, fun x => x - 1, fun x => x⟩

/-- 1-D tensor: a list of rationals. -/
abbrev T1Q := List ℚ

/-- 2-D tensor: a list of rows. -/
abbrev T2Q := List T1Q

/-- 3-D tensor as nested lists. -/
abbrev T3Q := List T2Q

/-- Broadcast indexing into one dimension: a dimension of size 1 is
repeated along the broadcast, otherwise the index is used as is
(torch broadcasting semantics). -/
def bGet {γ : Type} (l : List γ) (i : ℕ) (d : γ) : γ :=
  if l.length = 1 then l.headD d else l.getD i d

/-- `tensor.unsqueeze(1)` on a 2-D tensor: `[n, d] → [n, 1, d]`. -/
def unsqueeze1 (x : T2Q) : T3Q := x.map fun r => [r]

/-- `tensor.unsqueeze(0)` on a 2-D tensor: `[n, d] → [1, n, d]`. -/
def unsqueeze0 (x : T2Q) : T3Q := [x]

/-- `F.cosine_similarity(a, b, dim=-1)` on two 3-D tensors: the first two
dimensions broadcast pointwise, the last dimension is reduced by the
vector-level cosine kernel. -/
def cosine_similarity3 (csim : T1Q → T1Q → ℚ) (a b : T3Q) : T2Q :=
  (List.range (max a.length b.length)).map fun i =>
    (List.range (max (bGet a i []).length (bGet b i []).length)).map fun j =>
      csim (bGet (bGet a i []) j []) (bGet (bGet b i []) j [])

/-- Elementwise division of a 2-D tensor by a scalar (`sim / self.temp`). -/
def matDivScalar (m : T2Q) (t : ℚ) : T2Q := m.map fun row => row.map fun x => x / t

/-- `log(sum(exp(row)))` with the abstract kernels. -/
def logSumExp (K : Kernels) (row : T1Q) : ℚ := K.logf ((row.map K.expf).sum)

/-- `F.cross_entropy(input, target)` with integer class targets and the
default mean reduction: the mean over rows of
`log(sum(exp(row))) - row[target]`. -/
def cross_entropy (K : Kernels) (input : T2Q) (target : List ℕ) : ℚ :=
  let losses := (input.zip target).map fun p => logSumExp K p.1 - p.1.getD p.2 0
  losses.sum / (losses.length : ℚ)

/-- `torch.arange(n).long()`: the labels `0, 1, …, n-1`. -/
def torch_arange (n : ℕ) : List ℕ := List.range n

/-- The `UnsupContrastiveLoss` module: its only field is `self.temp`. -/
structure UnsupContrastiveLossM where
  temp : ℚ
deriving DecidableEq

/-- `UnsupContrastiveLoss.forward` (myModule.py lines 28-37):
`sim = F.cosine_similarity(first.unsqueeze(1), second.unsqueeze(0), dim=-1) / self.temp`,
`label = torch.arange(sim.shape[0])`, and it returns
`(F.cross_entropy(sim, label), sim)`. -/
def unsupContrastiveLoss_forward (K : Kernels) (self : UnsupContrastiveLossM)
    (first second : T2Q) : ℚ × T2Q :=
  let sim := matDivScalar (cosine_similarity3 K.csim (unsqueeze1 first) (unsqueeze0 second)) self.temp
  let label := torch_arange sim.length
  (cross_entropy K sim label, sim)

/-- The `SGLossOpt2` module: its only field is `self.temp`. -/
structure SGLossOpt2M where
  temp : ℚ
deriving DecidableEq

/-- `SGLossOpt2.forward` (myModule.py lines 180-189), translated from its
own source text (which coincides with that of `UnsupContrastiveLoss`). -/
def sgLossOpt2_forward (K : Kernels) (self : SGLossOpt2M) (cls hidden : T2Q) : ℚ × T2Q :=
  let sim := matDivScalar (cosine_similarity3 K.csim (unsqueeze1 cls) (unsqueeze0 hidden)) self.temp
  let label := torch_arange sim.length
  (cross_entropy K sim label, sim)

/-- The matrix the specification describes for `UnsupContrastiveLoss`:
`sim[i][j] = cosine_similarity(first[i], second[j]) / temp`.  This
definition follows the wording of the spec, to be compared against the
translated code. -/
def simSpec (K : Kernels) (temp : ℚ) (first second : T2Q) : T2Q :=
  (List.range first.length).map fun i =>
    (List.range second.length).map fun j =>
      K.csim (first.getD i []) (second.getD j []) / temp

/-- A tensor whose dynamic rank the code inspects: a shape together with
the flat (row-major) data. -/
structure Ten where
  shape : List ℕ
  data : List ℚ
deriving DecidableEq, Repr

/-- `tensor.ndim`. -/
def Ten.ndim (t : Ten) : ℕ := t.shape.length

/-- `tensor.numel()`: product of the shape. -/
def Ten.numel (t : Ten) : ℕ := t.shape.prod

/-- `tensor.reshape(s)`: keeps the flat data, errors when the element
count does not match. -/
def Ten.reshape (t : Ten) (s : List ℕ) : Except PyErr Ten :=
  if t.numel = s.prod then .ok ⟨s, t.data⟩
  else .error (.runtimeError "shape is invalid for input of given size")

/-- A `[n, c]` tensor as a list of its `n` rows, the interface between
the flat representation and the nested-list loss modules. -/
def Ten.toRows (t : Ten) : T2Q :=
  let n := t.shape.getD 0 0
  let c := t.shape.getD 1 0
  (List.range n).map fun i => (t.data.drop (i * c)).take c

/-- `tensor[:, k]` on a `[a, b, c]` tensor: the `[a, c]` slice at middle
index `k`. -/
def Ten.sliceMid (t : Ten) (k : ℕ) : Ten :=
  let a := t.shape.getD 0 0
  let b := t.shape.getD 1 0
  let c := t.shape.getD 2 0
  ⟨[a, c], ((List.range a).map fun i => (t.data.drop (i * b * c + k * c)).take c).flatten⟩

/-- Objects returned by the huggingface loaders: a pretrained model or a
pretrained tokenizer. -/
inductive HFObject where
  | model (name : String)
  | tokenizer (name : String)
deriving DecidableEq, Repr

/-- `AutoModel.from_pretrained(name)`. -/
def autoModel_from_pretrained (name : String) : HFObject := .model name

/-- `AutoTokenizer.from_pretrained(name)`. -/
def autoTokenizer_from_pretrained (name : String) : HFObject := .tokenizer name

/-- Calling `self.bert(input_ids=…, attention_mask=…, token_type_ids=…).pooler_output`.
A pretrained transformer is external to the repository, so a `model` is
interpreted through an abstract encoder `enc` giving the pooler output;
the call signature of a tokenizer has no `input_ids` keyword parameter,
so calling a tokenizer this way raises `TypeError`. -/
def bertCall (enc : Ten → Ten → Ten → Ten) (obj : HFObject) (ids mask tti : Ten) :
    Except PyErr Ten :=
  match obj with
  | .model _ => .ok (enc ids mask tti)
  | .tokenizer _ => .error (.typeError "got an unexpected keyword argument input_ids")

/-- Error message of the `UnsupSimCSE.forward` shape check (source typo kept). -/
def msg_dim2 : String := "input dimension shoule be [batch_size, 2, hidden_dim]"

/-- Error message of the `SupSimCSE.forward` shape check (source typo kept). -/
def msg_dim3 : String := "input dimension shoule be [batch_size, 3, hidden_dim]"

/-- Error message of the samplers and self-guided losses shape checks. -/
def msg_hidden3 : String := "hidden_states dimensions shoule be 3, including(batch, layer, hidden)"

/-- The `UnsupSimCSE` module: `self.temp`, `self.bert`, `self.contra_loss`. -/
structure UnsupSimCSEM where
  temp : ℚ
  bert : HFObject
  contra_loss : UnsupContrastiveLossM
deriving DecidableEq

/-- `UnsupSimCSE.__init__` (myModule.py lines 65-69): note the source
assigns `self.bert = AutoTokenizer.from_pretrained(pretraind_model)`. -/
def unsupSimCSE_init (pretraind_model : String) (temp : ℚ) : UnsupSimCSEM :=
  { temp := temp
    bert := autoTokenizer_from_pretrained pretraind_model
    contra_loss := ⟨temp⟩ }

/-- `UnsupSimCSE.forward` (myModule.py lines 71-89).  When
`token_type_ids` is `None` the branch assigning `flat_token_type_ids` is
skipped, and evaluating the encoder-call argument reads the unbound
local, raising `UnboundLocalError`. -/
def unsupSimCSE_forward (K : Kernels) (enc : Ten → Ten → Ten → Ten) (self : UnsupSimCSEM)
    (input_ids attention_mask : Ten) (token_type_ids : Option Ten) :
    Except PyErr (ℚ × T2Q) :=
  if input_ids.ndim ≠ 3 then .error (.notImplementedError msg_dim2) else
  let batch_size := input_ids.shape.getD 0 0
  let hidden_dim := input_ids.shape.getD 2 0
  match input_ids.reshape [batch_size * 2, hidden_dim] with
  | .error e => .error e
  | .ok flat_input_ids =>
    match attention_mask.reshape [batch_size * 2, hidden_dim] with
    | .error e => .error e
    | .ok flat_attention_mask =>
      match token_type_ids with
      | none => .error (.unboundLocalError "flat_token_type_ids")
      | some tti =>
        match tti.reshape [batch_size * 2, hidden_dim] with
        | .error e => .error e
        | .ok flat_token_type_ids =>
          match bertCall enc self.bert flat_input_ids flat_attention_mask flat_token_type_ids with
          | .error e => .error e
          | .ok pooler_output =>
            match pooler_output.reshape [batch_size, 2, hidden_dim] with
            | .error e => .error e
            | .ok pooler2 =>
              .ok (unsupContrastiveLoss_forward K self.contra_loss
                    (pooler2.sliceMid 0).toRows (pooler2.sliceMid 1).toRows)

/-- Python values as they appear at the `torch.cat` call site. -/
inductive PyVal where
  | tensor (t : T2Q)
  | intv (n : ℤ)
  | listv (ts : List T2Q)
deriving DecidableEq

/-- Argument binding of `torch.cat(tensors, dim=0)` with Python call
semantics: positional arguments fill `tensors` then `dim`; a `dim`
keyword on top of two positional arguments raises
`TypeError: got multiple values for argument dim`. -/
def torch_cat_bind (pos : List PyVal) (dimKw : Option ℤ) : Except PyErr (PyVal × ℤ) :=
  match pos, dimKw with
  | [ts], none => .ok (ts, 0)
  | [ts], some d => .ok (ts, d)
  | [ts, .intv d], none => .ok (ts, d)
  | _ :: _ :: _, some _ => .error (.typeError "cat got multiple values for argument dim")
  | _, _ => .error (.typeError "cat invalid arguments")

/-- Concatenation of 2-D tensors along the last dimension (the only
`dim` the repository requests). -/
def catLastDim (ts : List T2Q) : T2Q :=
  let n := (ts.headD []).length
  (List.range n).map fun i => (ts.map fun m => m.getD i []).flatten

/-- `torch.cat` proper: the bound `tensors` argument must be a sequence
of tensors, a bare tensor is a `TypeError`. -/
def torch_cat (pos : List PyVal) (dimKw : Option ℤ) : Except PyErr T2Q :=
  match torch_cat_bind pos dimKw with
  | .error e => .error e
  | .ok (.listv ts, _) => .ok (catLastDim ts)
  | .ok (_, _) => .error (.typeError "cat expected a sequence of Tensors")

/-- The `SupContrastiveLoss` module: its only field is `self.temp`. -/
structure SupContrastiveLossM where
  temp : ℚ
deriving DecidableEq

/-- `SupContrastiveLoss.forward` (myModule.py lines 47-58): the source
calls `torch.cat(sim_pre_ent, sim_pre_contra, dim=-1)` with the two
matrices as positional arguments. -/
def supContrastiveLoss_forward (K : Kernels) (self : SupContrastiveLossM)
    (premise entail contra : T2Q) : Except PyErr (ℚ × T2Q) :=
  let sim_pre_ent :=
    matDivScalar (cosine_similarity3 K.csim (unsqueeze1 premise) (unsqueeze0 entail)) self.temp
  let sim_pre_contra :=
    matDivScalar (cosine_similarity3 K.csim (unsqueeze1 premise) (unsqueeze0 contra)) self.temp
  match torch_cat [.tensor sim_pre_ent, .tensor sim_pre_contra] (some (-1)) with
  | .error e => .error e
  | .ok sim_pre_ent_contra =>
    let label := torch_arange sim_pre_ent.length
    .ok (cross_entropy K sim_pre_ent_contra label, sim_pre_ent_contra)

/-- The `SupSimCSE` module: `self.temp`, `self.bert`, `self.contra_loss`. -/
structure SupSimCSEM where
  temp : ℚ
  bert : HFObject
  contra_loss : SupContrastiveLossM
deriving DecidableEq

/-- `SupSimCSE.__init__` (myModule.py lines 96-100): the source assigns
`self.bert = AutoTokenizer.from_pretrained(pretraind_model)`. -/
def supSimCSE_init (pretraind_model : String) (temp : ℚ) : SupSimCSEM :=
  { temp := temp
    bert := autoTokenizer_from_pretrained pretraind_model
    contra_loss := ⟨temp⟩ }

/-- `SupSimCSE.forward` (myModule.py lines 102-120), three views per
batch element. -/
def supSimCSE_forward (K : Kernels) (enc : Ten → Ten → Ten → Ten) (self : SupSimCSEM)
    (input_ids attention_mask : Ten) (token_type_ids : Option Ten) :
    Except PyErr (ℚ × T2Q) :=
  if input_ids.ndim ≠ 3 then .error (.notImplementedError msg_dim3) else
  let batch_size := input_ids.shape.getD 0 0
  let hidden_dim := input_ids.shape.getD 2 0
  match input_ids.reshape [batch_size * 3, hidden_dim] with
  | .error e => .error e
  | .ok flat_input_ids =>
    match attention_mask.reshape [batch_size * 3, hidden_dim] with
    | .error e => .error e
    | .ok flat_attention_mask =>
      match token_type_ids with
      | none => .error (.unboundLocalError "flat_token_type_ids")
      | some tti =>
        match tti.reshape [batch_size * 3, hidden_dim] with
        | .error e => .error e
        | .ok flat_token_type_ids =>
          match bertCall enc self.bert flat_input_ids flat_attention_mask flat_token_type_ids with
          | .error e => .error e
          | .ok pooler_output =>
            match pooler_output.reshape [batch_size, 3, hidden_dim] with
            | .error e => .error e
            | .ok pooler3 =>
              supContrastiveLoss_forward K self.contra_loss
                (pooler3.sliceMid 0).toRows (pooler3.sliceMid 1).toRows (pooler3.sliceMid 2).toRows

/-- `UniformSampler.forward` (myModule.py lines 134-142):
`torch.mean(hidden_states, dim=1)` after the rank check. -/
def uniformSampler_forward (hidden_states : Ten) : Except PyErr Ten :=
  if hidden_states.ndim ≠ 3 then .error (.notImplementedError msg_hidden3) else
  let b := hidden_states.shape.getD 0 0
  let l := hidden_states.shape.getD 1 0
  let h := hidden_states.shape.getD 2 0
  .ok ⟨[b, h],
    ((List.range b).map fun i =>
      (List.range h).map fun k =>
        (((List.range l).map fun j =>
          hidden_states.data.getD (i * l * h + j * h + k) 0).sum) / (l : ℚ)).flatten⟩

/-- The `WeightedSampler` module: its only field is `self.weights`. -/
structure WeightedSamplerM where
  weights : Ten
deriving DecidableEq

/-- `WeightedSampler.forward` (myModule.py lines 152-170).  The
conditional reads `if weights is not None: w = self.weights else:
w = weights`, so a passed argument is ignored in favour of the stored
weights, and an omitted argument leaves `w = None`, making `len(w)`
raise `TypeError`.  `len` of a tensor is its leading dimension.  The
final `torch.sum` has no `dim` argument and yields a 0-d scalar. -/
def weightedSampler_forward (self : WeightedSamplerM) (hidden_states : Ten)
    (weights : Option Ten) : Except PyErr Ten :=
  let w : Option Ten := if weights.isSome then some self.weights else weights
  if hidden_states.ndim ≠ 3 then .error (.notImplementedError msg_hidden3) else
  let l := hidden_states.shape.getD 1 0
  let h := hidden_states.shape.getD 2 0
  match w with
  | none => .error (.typeError "object of type NoneType has no len")
  | some wt =>
    if l ≠ wt.shape.getD 0 0 then
      .error (.notImplementedError "layer_num should have same length with weights")
    else
      let s := wt.data.sum
      let wn := wt.data.map fun x => x / s
      .ok ⟨[], [((List.range hidden_states.numel).map fun idx =>
        hidden_states.data.getD idx 0 * wn.getD (idx / h % l) 0).sum]⟩

/-- The `SGLossOpt3` module: its only field is `self.temp`. -/
structure SGLossOpt3M where
  temp : ℚ
deriving DecidableEq

/-- `SGLossOpt3.forward` (myModule.py lines 200-235).  `sim_ci_hik` and
`sim_ci_hmn` are the exponentiated cosine similarities; the mask is
`(ones - eye).repeat(1, layer_num)` (tiling with period `batch_size`
along the columns), the similarity cube is reshaped to
`[batch, batch*layers]` (grouping by `layer_num`), and the loss is the
mean over the `batch × layer` log-ratio terms. -/
def sgLossOpt3_forward (K : Kernels) (self : SGLossOpt3M) (cls hidden : Ten) :
    Except PyErr ℚ :=
  if hidden.ndim ≠ 3 then .error (.notImplementedError msg_hidden3) else
  let batch_size := hidden.shape.getD 0 0
  let layer_num := hidden.shape.getD 1 0
  let hidden_dim := hidden.shape.getD 2 0
  let ch := cls.shape.getD 1 0
  let clsRow := fun i => (cls.data.drop (i * ch)).take ch
  let hidVec := fun i k => (hidden.data.drop (i * layer_num * hidden_dim + k * hidden_dim)).take hidden_dim
  let sim_ci_hik := fun i k => K.expf (K.csim (clsRow i) (hidVec i k))
  let sim_ci_hmn := fun m n k => K.expf (K.csim (clsRow m) (hidVec n k))
  let hmn_mask := fun (m j : ℕ) => if m = j % batch_size then (0 : ℚ) else 1
  let sim_flat := fun m j => sim_ci_hmn m (j / layer_num) (j % layer_num)
  let sim_after_mask := fun m j => sim_flat m j * hmn_mask m j
  let rowSum := fun i =>
    ((List.range (batch_size * layer_num)).map fun j => sim_after_mask i j).sum
  let loss_list :=
    ((List.range batch_size).map fun i =>
      (List.range layer_num).map fun k =>
        - K.logf (sim_ci_hik i k) + K.logf (sim_ci_hik i k + rowSum i)).flatten
  .ok (loss_list.sum / (loss_list.length : ℚ))

/-- The `SGLossOpt3Simplified` module: its only field is `self.temp`. -/
structure SGLossOpt3SimplifiedM where
  temp : ℚ
deriving DecidableEq

/-- `SGLossOpt3Simplified.forward` (myModule.py lines 248-294):
`loss1 = -log(sim_ci_hik).sum()` over the flattened numerators and
`loss2 = log(sim_ci_hmn.sum(dim=[1,2])).sum()` over the per-sentence
denominators. -/
def sgLossOpt3Simplified_forward (K : Kernels) (self : SGLossOpt3SimplifiedM)
    (cls hidden : Ten) : Except PyErr ℚ :=
  if hidden.ndim ≠ 3 then .error (.notImplementedError msg_hidden3) else
  let batch_size := hidden.shape.getD 0 0
  let layer_num := hidden.shape.getD 1 0
  let hidden_dim := hidden.shape.getD 2 0
  let ch := cls.shape.getD 1 0
  let clsRow := fun i => (cls.data.drop (i * ch)).take ch
  let hidVec := fun i k => (hidden.data.drop (i * layer_num * hidden_dim + k * hidden_dim)).take hidden_dim
  let sim_ci_hik := fun i k => K.expf (K.csim (clsRow i) (hidVec i k))
  let sim_ci_hmn := fun m n k => K.expf (K.csim (clsRow m) (hidVec n k))
  let loss1 :=
    - ((List.range batch_size).map fun i =>
        ((List.range layer_num).map fun k => K.logf (sim_ci_hik i k)).sum).sum
  let sum_over_mn := fun i =>
    ((List.range batch_size).map fun n =>
      ((List.range layer_num).map fun k => sim_ci_hmn i n k).sum).sum
  let loss2 := ((List.range batch_size).map fun i => K.logf (sum_over_mn i)).sum
  .ok (loss1 + loss2)

/-- The `RegLoss` module has no fields. -/
structure RegLossM where
deriving DecidableEq

/-- `RegLoss.forward` (myModule.py lines 314-322): squared parameter
distances, stacked, summed and square-rooted; `torch.stack` of an empty
list raises. -/
def regLoss_forward (K : Kernels) (param1 param2 : List Ten) : Except PyErr ℚ :=
  let param_list := (param1.zip param2).map fun p =>
    ((p.1.data.zip p.2.data).map fun q => (q.1 - q.2) ^ 2).sum
  if param_list.isEmpty then .error (.runtimeError "stack expects a non-empty TensorList")
  else .ok (K.sqrtf param_list.sum)

/-- The kind of self-guided loss stored in `TotalLoss.sgloss`. -/
inductive SGLossKind where
  | opt2 (temp : ℚ)
  | opt3 (temp : ℚ)
  | opt3s (temp : ℚ)
deriving DecidableEq

/-- The sampler stored in `TotalLoss.sampler`. -/
inductive SamplerKind where
  | uniform
  | weighted (weights : Ten)
deriving DecidableEq

/-- The `TotalLoss` module. -/
structure TotalLossM where
  sgloss : SGLossKind
  sampler : SamplerKind
  lamb : ℚ
deriving DecidableEq

/-- `TotalLoss.__init__` (myModule.py lines 325-329): the source sets
`self.lamb = 0.1`, ignoring the `lamb` argument. -/
def totalLoss_init (sgloss : SGLossKind) (sampler : SamplerKind) (lamb : ℚ) : TotalLossM :=
  ⟨sgloss, sampler, 1 / 10⟩

/-- `self.sampler(hiddens)`: the sampler is called with its single
positional argument, so `WeightedSampler.forward` receives
`weights=None`. -/
def samplerCall (sampler : SamplerKind) (hiddens : Ten) : Except PyErr Ten :=
  match sampler with
  | .uniform => uniformSampler_forward hiddens
  | .weighted w => weightedSampler_forward ⟨w⟩ hiddens none

/-- `TotalLoss.forward` (myModule.py lines 331-339): the sampler runs
unless the loss is an Opt3 variant; an Opt2 loss returns a
`(loss, sim)` tuple, and adding that tuple to the regularisation scalar
is a `TypeError`. -/
def totalLoss_forward (K : Kernels) (self : TotalLossM) (cls hiddens : Ten)
    (p1 p2 : List Ten) : Except PyErr ℚ :=
  match self.sgloss with
  | .opt2 t =>
    match samplerCall self.sampler hiddens with
    | .error e => .error e
    | .ok hiddens2 =>
      let _pair := sgLossOpt2_forward K ⟨t⟩ cls.toRows hiddens2.toRows
      match regLoss_forward K p1 p2 with
      | .error e => .error e
      | .ok _reg => .error (.typeError "unsupported operand type for +: tuple and Tensor")
  | .opt3 t =>
    match sgLossOpt3_forward K ⟨t⟩ cls hiddens with
    | .error e => .error e
    | .ok l =>
      match regLoss_forward K p1 p2 with
      | .error e => .error e
      | .ok reg => .ok (l + self.lamb * reg)
  | .opt3s t =>
    match sgLossOpt3Simplified_forward K ⟨t⟩ cls hiddens with
    | .error e => .error e
    | .ok l =>
      match regLoss_forward K p1 p2 with
      | .error e => .error e
      | .ok reg => .ok (l + self.lamb * reg)

/-- Modelled from the library: a representative set of attribute names
exported by `torch.nn`; crucially there is no attribute `Moduke`. -/
def torch_nn_names : List String :=
  ["Module", "Linear", "GELU", "ReLU", "Sequential", "Dropout", "Embedding",
   "LayerNorm", "functional"]

/-- The class statements of `myModule.py` in source order, each with the
name its base-class expression looks up on `torch.nn`. -/
def myModule_class_bases : List (String × String) :=
  [("UnsupContrastiveLoss", "Module"), ("SupContrastiveLoss", "Module"),
   ("UnsupSimCSE", "Module"), ("SupSimCSE", "Module"),
   ("UniformSampler", "Module"), ("WeightedSampler", "Module"),
   ("SGLossOpt2", "Module"), ("SGLossOpt3", "Module"),
   ("SGLossOpt3Simplified", "Module"), ("RegHiddenLoss", "Moduke"),
   ("RegLoss", "Module"), ("TotalLoss", "Module"),
   ("SelfGuidedContraModel", "Module")]

/-- Importing `myModule` evaluates every top-level class statement in
order; evaluating a class statement resolves its base-class attribute on
`torch.nn`, raising `AttributeError` when the attribute is missing. -/
def importMyModule : Except PyErr (List String) :=
  myModule_class_bases.foldlM
    (fun acc p =>
      if p.2 ∈ torch_nn_names then Except.ok (acc ++ [p.1])
      else Except.error (.attributeError ("module torch.nn has no attribute " ++ p.2)))
    []

/-- `super.__init__()` with `super` left uncalled: the descriptor
`__init__` of the `super` type requires at least the instance argument,
so a call with zero positional arguments raises `TypeError`. -/
def superTypeInitCall (posArgs : ℕ) : Except PyErr Unit :=
  if posArgs = 0 then
    .error (.typeError "descriptor __init__ of super object needs an argument")
  else .ok ()

/-- The would-be fields of `SelfGuidedContraModel`. -/
structure SelfGuidedContraModelM where
  bertF : HFObject
  bertT : HFObject
  projHidden : ℕ
  loss_fn : TotalLossM
deriving DecidableEq

/-- `SelfGuidedContraModel.__init__` (myModule.py lines 343-354): its
first statement is `super.__init__()` (no parentheses after `super`),
which raises before any field is assigned. -/
def selfGuidedContraModel_init (model_name : String) (total_loss : TotalLossM)
    (hidden : ℕ) : Except PyErr SelfGuidedContraModelM :=
  match superTypeInitCall 0 with
  | .error e => .error e
  | .ok _ =>
    .ok { bertF := autoModel_from_pretrained model_name
          bertT := autoModel_from_pretrained model_name
          projHidden := hidden
          loss_fn := total_loss }

/-- The `UniformSampler` module has no fields. -/
structure UniformSamplerM where
deriving DecidableEq

/-- `UnsupContrastiveLoss.forward` with the module state threaded
through the call: the source body only reads `self.temp` and contains no
assignment to `self`, so the module comes back unchanged. -/
def unsupContrastiveLoss_forwardS (K : Kernels) (self : UnsupContrastiveLossM)
    (first second : T2Q) : (ℚ × T2Q) × UnsupContrastiveLossM :=
  (unsupContrastiveLoss_forward K self first second, self)

/-- `SupContrastiveLoss.forward` with the module state threaded through:
the source body only reads `self.temp`. -/
def supContrastiveLoss_forwardS (K : Kernels) (self : SupContrastiveLossM)
    (premise entail contra : T2Q) : Except PyErr (ℚ × T2Q) × SupContrastiveLossM :=
  (supContrastiveLoss_forward K self premise entail contra, self)

/-- `UniformSampler.forward` with the module state threaded through: the
source body reads no field and assigns none. -/
def uniformSampler_forwardS (self : UniformSamplerM) (hidden_states : Ten) :
    Except PyErr Ten × UniformSamplerM :=
  (uniformSampler_forward hidden_states, self)

/-- `WeightedSampler.forward` with the module state threaded through:
the source body only reads `self.weights`. -/
def weightedSampler_forwardS (self : WeightedSamplerM) (hidden_states : Ten)
    (weights : Option Ten) : Except PyErr Ten × WeightedSamplerM :=
  (weightedSampler_forward self hidden_states weights, self)

/-- `SGLossOpt2.forward` with the module state threaded through: the
source body only reads `self.temp`. -/
def sgLossOpt2_forwardS (K : Kernels) (self : SGLossOpt2M) (cls hidden : T2Q) :
    (ℚ × T2Q) × SGLossOpt2M :=
  (sgLossOpt2_forward K self cls hidden, self)

/-- `SGLossOpt3.forward` with the module state threaded through. -/
def sgLossOpt3_forwardS (K : Kernels) (self : SGLossOpt3M) (cls hidden : Ten) :
    Except PyErr ℚ × SGLossOpt3M :=
  (sgLossOpt3_forward K self cls hidden, self)

/-- `SGLossOpt3Simplified.forward` with the module state threaded
through. -/
def sgLossOpt3Simplified_forwardS (K : Kernels) (self : SGLossOpt3SimplifiedM)
    (cls hidden : Ten) : Except PyErr ℚ × SGLossOpt3SimplifiedM :=
  (sgLossOpt3Simplified_forward K self cls hidden, self)

/-- `RegLoss.forward` with the module state threaded through: the source
body reads no field and assigns none. -/
def regLoss_forwardS (K : Kernels) (self : RegLossM) (param1 param2 : List Ten) :
    Except PyErr ℚ × RegLossM :=
  (regLoss_forward K param1 param2, self)

/-- `TotalLoss.forward` with the module state threaded through: the
source body reads `self.sgloss`, `self.sampler`, `self.lamb`,
`self.regloss` and assigns none of them. -/
def totalLoss_forwardS (K : Kernels) (self : TotalLossM) (cls hiddens : Ten)
    (p1 p2 : List Ten) : Except PyErr ℚ × TotalLossM :=
  (totalLoss_forward K self cls hiddens p1 p2, self)

lemma bGet_eq_getD {γ : Type} (l : List γ) (i : ℕ) (d : γ) (h : i < l.length) :
    bGet l i d = l.getD i d := by
  unfold bGet
  split
  · next h1 =>
    have hi : i = 0 := by omega
    subst hi
    cases l with
    | nil => simp at h1
    | cons a t => simp
  · rfl

lemma getD_map_of_lt {α β : Type} (g : α → β) (l : List α) (i : ℕ) (d : β) (d' : α)
    (h : i < l.length) : (l.map g).getD i d = g (l.getD i d') := by
  induction l generalizing i with
  | nil => simp at h
  | cons a t ih =>
    cases i with
    | zero => simp
    | succ n =>
      simp only [List.map_cons, List.getD_cons_succ]
      exact ih n (by simpa using Nat.lt_of_succ_lt_succ h)

/-- The broadcast `F.cosine_similarity(first.unsqueeze(1), second.unsqueeze(0), dim=-1) / temp`
computes exactly the pairwise similarity matrix described by the spec. -/
lemma broadcast_cos_eq_simSpec (K : Kernels) (t : ℚ) (f s : T2Q) (n : ℕ)
    (hf : f.length = n) (hs : s.length = n) (hn : 1 ≤ n) :
    matDivScalar (cosine_similarity3 K.csim (unsqueeze1 f) (unsqueeze0 s)) t =
      simSpec K t f s := by
  unfold matDivScalar cosine_similarity3 unsqueeze1 unsqueeze0 simSpec
  simp only [List.length_map, List.length_cons, List.length_nil, hf, hs, List.map_map]
  rw [Nat.max_eq_left hn]
  apply List.map_congr_left
  intro i hi
  have hi' : i < n := List.mem_range.mp hi
  have hA : bGet (f.map fun r => [r]) i ([] : T2Q) = [f.getD i ([] : T1Q)] := by
    rw [bGet_eq_getD _ _ _ (by simp [hf]; omega)]
    exact getD_map_of_lt _ _ _ _ [] (by omega)
  have hB : bGet [s] i ([] : T2Q) = s := by
    simp [bGet]
  simp only [Function.comp_apply, hA, hB]
  simp only [List.length_cons, List.length_nil, hs, List.map_map]
  rw [Nat.max_eq_right hn]
  apply List.map_congr_left
  intro j hj
  have hj' : j < n := List.mem_range.mp hj
  have hAA : bGet [f.getD i ([] : T1Q)] j ([] : T1Q) = f.getD i [] := by
    simp [bGet]
  have hBB : bGet s j ([] : T1Q) = s.getD j [] := by
    exact bGet_eq_getD _ _ _ (by omega)
  simp only [Function.comp_apply, hAA, hBB]

/-- C1: for every temperature `temp > 0` and all tensors `first`,
`second` of shape `[batch_size, hidden]` with `batch_size ≥ 1`,
`UnsupContrastiveLoss(temp).forward(first, second)` returns the pair
`(loss, sim)` where `sim` is the `batch_size × batch_size` matrix with
`sim[i][j] = cosine_similarity(first[i], second[j]) / temp` and `loss`
is the cross-entropy of `sim` against the diagonal labels
`label[i] = i`. -/
theorem c1_unsup_forward_is_pairwise_ce (K : Kernels) (self : UnsupContrastiveLossM)
    (first second : T2Q) (batch_size hidden : ℕ)
    (htemp : 0 < self.temp)
    (hf : first.length = batch_size) (hs : second.length = batch_size)
    (hbs : 1 ≤ batch_size)
    (hfr : ∀ r ∈ first, r.length = hidden) (hsr : ∀ r ∈ second, r.length = hidden) :
    unsupContrastiveLoss_forward K self first second =
      (cross_entropy K (simSpec K self.temp first second) (torch_arange batch_size),
       simSpec K self.temp first second) ∧
    (simSpec K self.temp first second).length = batch_size ∧
    (∀ r ∈ simSpec K self.temp first second, r.length = batch_size) ∧
    (∀ i, i < batch_size → (torch_arange batch_size).getD i 0 = i) := by
  have hsim := broadcast_cos_eq_simSpec K self.temp first second batch_size hf hs hbs
  have hlen : (simSpec K self.temp first second).length = batch_size := by
    simp [simSpec, hf]
  refine ⟨?_, hlen, ?_, ?_⟩
  · simp only [unsupContrastiveLoss_forward]
    rw [hsim, hlen]
  · intro r hr
    simp only [simSpec, List.mem_map] at hr
    obtain ⟨i, _, rfl⟩ := hr
    simp [hs]
  · intro i hi
    simp [torch_arange, List.getD_eq_getElem?_getD, List.getElem?_range hi]

/-- C1 witness: the theorem applied at a concrete input. -/
theorem c1_witness :
    unsupContrastiveLoss_forward K0 ⟨1⟩ [[1, 0], [0, 1]] [[1, 2], [3, 4]] =
      (cross_entropy K0 (simSpec K0 1 [[1, 0], [0, 1]] [[1, 2], [3, 4]]) (torch_arange 2),
       simSpec K0 1 [[1, 0], [0, 1]] [[1, 2], [3, 4]]) :=
  (c1_unsup_forward_is_pairwise_ce K0 ⟨1⟩ [[1, 0], [0, 1]] [[1, 2], [3, 4]] 2 2
    (by norm_num) rfl rfl (by omega) (by decide) (by decide)).1

/-- C9: `SGLossOpt2(temp).forward` and `UnsupContrastiveLoss(temp).forward`
are extensionally equal: same `(loss, sim)` pair on every input. -/
theorem c9_sgLossOpt2_eq_unsupContrastiveLoss (K : Kernels) (temp : ℚ) (cls hidden : T2Q) :
    sgLossOpt2_forward K ⟨temp⟩ cls hidden =
      unsupContrastiveLoss_forward K ⟨temp⟩ cls hidden := rfl

/-- C3: `SupContrastiveLoss.forward` never returns a loss: the
positional-argument `torch.cat` call raises `TypeError` on every
input, before the cross-entropy is computed. -/
theorem c3_sup_forward_always_typeerror (K : Kernels) (self : SupContrastiveLossM)
    (premise entail contra : T2Q) :
    supContrastiveLoss_forward K self premise entail contra =
      .error (.typeError "cat got multiple values for argument dim") := rfl

/-- C6: constructing `SelfGuidedContraModel` always raises: the
parenthesis-less `super.__init__()` is a `TypeError`, so no instance is
ever created. -/
theorem c6_selfGuided_init_always_raises (model_name : String) (total_loss : TotalLossM)
    (hidden : ℕ) :
    selfGuidedContraModel_init model_name total_loss hidden =
      .error (.typeError "descriptor __init__ of super object needs an argument") := rfl

/-- C7: `torch.nn` has no attribute `Moduke`, so evaluating the
`RegHiddenLoss` class statement fails and importing `myModule` raises
`AttributeError`; no class after it (and no `RegHiddenLoss.forward`)
is ever reachable. -/
theorem c7_import_fails_on_moduke :
    importMyModule = .error (.attributeError "module torch.nn has no attribute Moduke") ∧
    "Moduke" ∉ torch_nn_names ∧
    ("RegHiddenLoss", "Moduke") ∈ myModule_class_bases := by
  refine ⟨by rfl, by decide, by decide⟩

/-- C2: every shape check fires first: a leading tensor of rank other
than 3 makes `UnsupSimCSE.forward` / `SupSimCSE.forward` raise
`NotImplementedError`, and a hidden-states tensor of rank other than 3
does the same for `UniformSampler.forward`, `WeightedSampler.forward`,
`SGLossOpt3.forward` and `SGLossOpt3Simplified.forward`, before any
tensor is processed. -/
theorem c2_rank_checks_raise :
    (∀ (K : Kernels) (enc : Ten → Ten → Ten → Ten) (self : UnsupSimCSEM)
       (ids mask : Ten) (tti : Option Ten), ids.ndim ≠ 3 →
       unsupSimCSE_forward K enc self ids mask tti =
         .error (.notImplementedError msg_dim2)) ∧
    (∀ (K : Kernels) (enc : Ten → Ten → Ten → Ten) (self : SupSimCSEM)
       (ids mask : Ten) (tti : Option Ten), ids.ndim ≠ 3 →
       supSimCSE_forward K enc self ids mask tti =
         .error (.notImplementedError msg_dim3)) ∧
    (∀ hs : Ten, hs.ndim ≠ 3 →
       uniformSampler_forward hs = .error (.notImplementedError msg_hidden3)) ∧
    (∀ (self : WeightedSamplerM) (hs : Ten) (w : Option Ten), hs.ndim ≠ 3 →
       weightedSampler_forward self hs w = .error (.notImplementedError msg_hidden3)) ∧
    (∀ (K : Kernels) (self : SGLossOpt3M) (cls hidden : Ten), hidden.ndim ≠ 3 →
       sgLossOpt3_forward K self cls hidden = .error (.notImplementedError msg_hidden3)) ∧
    (∀ (K : Kernels) (self : SGLossOpt3SimplifiedM) (cls hidden : Ten), hidden.ndim ≠ 3 →
       sgLossOpt3Simplified_forward K self cls hidden =
         .error (.notImplementedError msg_hidden3)) := by
  refine ⟨?_, ?_, ?_, ?_, ?_, ?_⟩
  · intro K enc self ids mask tti h
    simp [unsupSimCSE_forward, h]
  · intro K enc self ids mask tti h
    simp [supSimCSE_forward, h]
  · intro hs h
    simp [uniformSampler_forward, h]
  · intro self hs w h
    simp [weightedSampler_forward, h]
  · intro K self cls hidden h
    simp [sgLossOpt3_forward, h]
  · intro K self cls hidden h
    simp [sgLossOpt3Simplified_forward, h]

/-- C2 witness: the theorem applied to rank-2 tensors. -/
theorem c2_witness :
    unsupSimCSE_forward K0 (fun t _ _ => t) (unsupSimCSE_init "bert" 1)
        ⟨[2, 2], [1, 2, 3, 4]⟩ ⟨[2, 2], [1, 2, 3, 4]⟩ none =
      .error (.notImplementedError msg_dim2) ∧
    supSimCSE_forward K0 (fun t _ _ => t) (supSimCSE_init "bert" 1)
        ⟨[2, 2], [1, 2, 3, 4]⟩ ⟨[2, 2], [1, 2, 3, 4]⟩ none =
      .error (.notImplementedError msg_dim3) ∧
    uniformSampler_forward ⟨[2, 2], [1, 2, 3, 4]⟩ =
      .error (.notImplementedError msg_hidden3) ∧
    weightedSampler_forward ⟨⟨[2], [1, 1]⟩⟩ ⟨[2, 2], [1, 2, 3, 4]⟩ none =
      .error (.notImplementedError msg_hidden3) ∧
    sgLossOpt3_forward K0 ⟨1⟩ ⟨[2, 2], [1, 2, 3, 4]⟩ ⟨[2, 2], [1, 2, 3, 4]⟩ =
      .error (.notImplementedError msg_hidden3) ∧
    sgLossOpt3Simplified_forward K0 ⟨1⟩ ⟨[2, 2], [1, 2, 3, 4]⟩ ⟨[2, 2], [1, 2, 3, 4]⟩ =
      .error (.notImplementedError msg_hidden3) :=
  ⟨c2_rank_checks_raise.1 K0 (fun t _ _ => t) (unsupSimCSE_init "bert" 1) _ _ none (by decide),
   c2_rank_checks_raise.2.1 K0 (fun t _ _ => t) (supSimCSE_init "bert" 1) _ _ none (by decide),
   c2_rank_checks_raise.2.2.1 _ (by decide),
   c2_rank_checks_raise.2.2.2.1 _ _ none (by decide),
   c2_rank_checks_raise.2.2.2.2.1 K0 ⟨1⟩ _ _ (by decide),
   c2_rank_checks_raise.2.2.2.2.2 K0 ⟨1⟩ _ _ (by decide)⟩

/-- C10: with `token_type_ids` left at `None`, `UnsupSimCSE.forward` and
`SupSimCSE.forward` never return a value, and on every call that passes
the rank check and the reshapes they fail precisely with the
unbound-local error for `flat_token_type_ids`, which is assigned only
inside the `token_type_ids is not None` branch yet unconditionally read
at the encoder call: the nominally optional argument is mandatory. -/
theorem c10_token_type_ids_mandatory :
    (∀ (K : Kernels) (enc : Ten → Ten → Ten → Ten) (self : UnsupSimCSEM)
       (ids mask : Ten) (r : ℚ × T2Q),
       unsupSimCSE_forward K enc self ids mask none ≠ .ok r) ∧
    (∀ (K : Kernels) (enc : Ten → Ten → Ten → Ten) (self : SupSimCSEM)
       (ids mask : Ten) (r : ℚ × T2Q),
       supSimCSE_forward K enc self ids mask none ≠ .ok r) ∧
    (∀ (K : Kernels) (enc : Ten → Ten → Ten → Ten) (self : UnsupSimCSEM)
       (ids mask : Ten) (b h : ℕ),
       ids.shape = [b, 2, h] → mask.numel = b * 2 * h →
       unsupSimCSE_forward K enc self ids mask none =
         .error (.unboundLocalError "flat_token_type_ids")) ∧
    (∀ (K : Kernels) (enc : Ten → Ten → Ten → Ten) (self : SupSimCSEM)
       (ids mask : Ten) (b h : ℕ),
       ids.shape = [b, 3, h] → mask.numel = b * 3 * h →
       supSimCSE_forward K enc self ids mask none =
         .error (.unboundLocalError "flat_token_type_ids")) := by
  refine ⟨?_, ?_, ?_, ?_⟩
  · intro K enc self ids mask r
    unfold unsupSimCSE_forward
    split
    · simp
    · split
      · dsimp only
        split
        · simp
        · split
          · simp
          · simp
      · rename_i tti heq
        exact Option.noConfusion heq
  · intro K enc self ids mask r
    unfold supSimCSE_forward
    split
    · simp
    · split
      · dsimp only
        split
        · simp
        · split
          · simp
          · simp
      · rename_i tti heq
        exact Option.noConfusion heq
  · intro K enc self ids mask b h hsh hm
    have hb : ids.shape.getD 0 0 = b := by simp [hsh]
    have hh : ids.shape.getD 2 0 = h := by simp [hsh]
    have hr1 : ids.reshape [b * 2, h] = .ok ⟨[b * 2, h], ids.data⟩ := by
      unfold Ten.reshape
      rw [if_pos]
      simp [Ten.numel, hsh]
      try ring
    have hr2 : mask.reshape [b * 2, h] = .ok ⟨[b * 2, h], mask.data⟩ := by
      unfold Ten.reshape
      rw [if_pos]
      rw [hm]
      simp
      try ring
    simp only [unsupSimCSE_forward, Ten.ndim, hsh, hb, hh]
    norm_num
    rw [hr1, hr2]
  · intro K enc self ids mask b h hsh hm
    have hb : ids.shape.getD 0 0 = b := by simp [hsh]
    have hh : ids.shape.getD 2 0 = h := by simp [hsh]
    have hr1 : ids.reshape [b * 3, h] = .ok ⟨[b * 3, h], ids.data⟩ := by
      unfold Ten.reshape
      rw [if_pos]
      simp [Ten.numel, hsh]
      try ring
    have hr2 : mask.reshape [b * 3, h] = .ok ⟨[b * 3, h], mask.data⟩ := by
      unfold Ten.reshape
      rw [if_pos]
      rw [hm]
      simp
      try ring
    simp only [supSimCSE_forward, Ten.ndim, hsh, hb, hh]
    norm_num
    rw [hr1, hr2]

/-- C10 witness: the theorem applied at a concrete well-shaped input. -/
theorem c10_witness :
    unsupSimCSE_forward K0 (fun t _ _ => t) (unsupSimCSE_init "bert" 1)
        ⟨[1, 2, 1], [1, 2]⟩ ⟨[2, 1], [1, 2]⟩ none =
      .error (.unboundLocalError "flat_token_type_ids") ∧
    supSimCSE_forward K0 (fun t _ _ => t) (supSimCSE_init "bert" 1)
        ⟨[1, 3, 1], [1, 2, 3]⟩ ⟨[3, 1], [1, 2, 3]⟩ none =
      .error (.unboundLocalError "flat_token_type_ids") :=
  ⟨c10_token_type_ids_mandatory.2.2.1 K0 (fun t _ _ => t) (unsupSimCSE_init "bert" 1)
      _ _ 1 1 rfl (by decide),
   c10_token_type_ids_mandatory.2.2.2 K0 (fun t _ _ => t) (supSimCSE_init "bert" 1)
      _ _ 1 1 rfl (by decide)⟩

/-- C4: what the wrappers actually store and run.  `UnsupSimCSE.__init__`
and `SupSimCSE.__init__` assign `AutoTokenizer.from_pretrained(...)` —
the tokenizer, not a transformer encoder — to `self.bert`, and
consequently a well-shaped `forward` call dies with `TypeError` at the
`self.bert(input_ids=...)` call instead of encoding anything. -/
theorem c4_bert_is_tokenizer_not_encoder :
    (∀ (name : String) (temp : ℚ),
       (unsupSimCSE_init name temp).bert = autoTokenizer_from_pretrained name ∧
       (supSimCSE_init name temp).bert = autoTokenizer_from_pretrained name ∧
       ∀ m, (unsupSimCSE_init name temp).bert ≠ HFObject.model m) ∧
    (∀ (K : Kernels) (enc : Ten → Ten → Ten → Ten) (name : String) (temp : ℚ)
       (ids mask tti : Ten) (b h : ℕ),
       ids.shape = [b, 2, h] → mask.numel = b * 2 * h → tti.numel = b * 2 * h →
       unsupSimCSE_forward K enc (unsupSimCSE_init name temp) ids mask (some tti) =
         .error (.typeError "got an unexpected keyword argument input_ids")) := by
  constructor
  · intro name temp
    exact ⟨rfl, rfl, fun m => by simp [unsupSimCSE_init, autoTokenizer_from_pretrained]⟩
  · intro K enc name temp ids mask tti b h hsh hm ht
    have hb : ids.shape.getD 0 0 = b := by simp [hsh]
    have hh : ids.shape.getD 2 0 = h := by simp [hsh]
    have hr1 : ids.reshape [b * 2, h] = .ok ⟨[b * 2, h], ids.data⟩ := by
      unfold Ten.reshape
      rw [if_pos]
      simp [Ten.numel, hsh]
      try ring
    have hr2 : mask.reshape [b * 2, h] = .ok ⟨[b * 2, h], mask.data⟩ := by
      unfold Ten.reshape
      rw [if_pos]
      rw [hm]
      simp
      try ring
    have hr3 : tti.reshape [b * 2, h] = .ok ⟨[b * 2, h], tti.data⟩ := by
      unfold Ten.reshape
      rw [if_pos]
      rw [ht]
      simp
      try ring
    simp only [unsupSimCSE_forward, Ten.ndim, hsh, hb, hh]
    norm_num
    rw [hr1, hr2, hr3]
    rfl

/-- C4 witness: the theorem applied at a concrete well-shaped input. -/
theorem c4_witness :
    (unsupSimCSE_init "bert-base" 1).bert = autoTokenizer_from_pretrained "bert-base" ∧
    unsupSimCSE_forward K0 (fun t _ _ => t) (unsupSimCSE_init "bert-base" 1)
        ⟨[1, 2, 1], [1, 2]⟩ ⟨[2, 1], [1, 2]⟩ (some ⟨[2, 1], [0, 0]⟩) =
      .error (.typeError "got an unexpected keyword argument input_ids") :=
  ⟨(c4_bert_is_tokenizer_not_encoder.1 "bert-base" 1).1,
   c4_bert_is_tokenizer_not_encoder.2 K0 (fun t _ _ => t) "bert-base" 1
     _ _ _ 1 1 rfl (by decide) (by decide)⟩

/-- C5: in `WeightedSampler.forward` the conditional `if weights is not
None: w = self.weights else: w = weights` makes the argument dead: any
two explicitly passed weight tensors give the same result, and omitting
the argument leaves `w = None` so that (once the rank check passes) the
`len(w)` length check raises `TypeError`. -/
theorem c5_weights_argument_dead (self : WeightedSamplerM) (hs : Ten) (w1 w2 : Ten) :
    weightedSampler_forward self hs (some w1) = weightedSampler_forward self hs (some w2) ∧
    (hs.ndim = 3 →
      weightedSampler_forward self hs none =
        .error (.typeError "object of type NoneType has no len")) := by
  constructor
  · rfl
  · intro h3
    simp [weightedSampler_forward, h3]

/-- C5 witness: the theorem applied at a concrete rank-3 input and two
different explicit weight tensors. -/
theorem c5_witness :
    weightedSampler_forward ⟨⟨[2], [1, 1]⟩⟩ ⟨[1, 2, 1], [1, 2]⟩ (some ⟨[7], [9]⟩) =
      weightedSampler_forward ⟨⟨[2], [1, 1]⟩⟩ ⟨[1, 2, 1], [1, 2]⟩ (some ⟨[0], []⟩) ∧
    weightedSampler_forward ⟨⟨[2], [1, 1]⟩⟩ ⟨[1, 2, 1], [1, 2]⟩ none =
      .error (.typeError "object of type NoneType has no len") :=
  ⟨(c5_weights_argument_dead ⟨⟨[2], [1, 1]⟩⟩ ⟨[1, 2, 1], [1, 2]⟩ ⟨[7], [9]⟩ ⟨[0], []⟩).1,
   (c5_weights_argument_dead ⟨⟨[2], [1, 1]⟩⟩ ⟨[1, 2, 1], [1, 2]⟩ ⟨[7], [9]⟩ ⟨[0], []⟩).2 rfl⟩

/-- C8: every loss/sampler `forward` is stateless: threading the module
through a call returns it with every field unchanged, and a second call
on the module returned by a first call with the same arguments gives
the same result. -/
theorem c8_forwards_stateless :
    (∀ (K : Kernels) (self : UnsupContrastiveLossM) (a b : T2Q),
       (unsupContrastiveLoss_forwardS K self a b).2 = self ∧
       (unsupContrastiveLoss_forwardS K (unsupContrastiveLoss_forwardS K self a b).2 a b).1 =
         (unsupContrastiveLoss_forwardS K self a b).1) ∧
    (∀ (K : Kernels) (self : SupContrastiveLossM) (a b c : T2Q),
       (supContrastiveLoss_forwardS K self a b c).2 = self ∧
       (supContrastiveLoss_forwardS K (supContrastiveLoss_forwardS K self a b c).2 a b c).1 =
         (supContrastiveLoss_forwardS K self a b c).1) ∧
    (∀ (self : UniformSamplerM) (hs : Ten),
       (uniformSampler_forwardS self hs).2 = self ∧
       (uniformSampler_forwardS (uniformSampler_forwardS self hs).2 hs).1 =
         (uniformSampler_forwardS self hs).1) ∧
    (∀ (self : WeightedSamplerM) (hs : Ten) (w : Option Ten),
       (weightedSampler_forwardS self hs w).2 = self ∧
       (weightedSampler_forwardS (weightedSampler_forwardS self hs w).2 hs w).1 =
         (weightedSampler_forwardS self hs w).1) ∧
    (∀ (K : Kernels) (self : SGLossOpt2M) (a b : T2Q),
       (sgLossOpt2_forwardS K self a b).2 = self ∧
       (sgLossOpt2_forwardS K (sgLossOpt2_forwardS K self a b).2 a b).1 =
         (sgLossOpt2_forwardS K self a b).1) ∧
    (∀ (K : Kernels) (self : SGLossOpt3M) (a b : Ten),
       (sgLossOpt3_forwardS K self a b).2 = self ∧
       (sgLossOpt3_forwardS K (sgLossOpt3_forwardS K self a b).2 a b).1 =
         (sgLossOpt3_forwardS K self a b).1) ∧
    (∀ (K : Kernels) (self : SGLossOpt3SimplifiedM) (a b : Ten),
       (sgLossOpt3Simplified_forwardS K self a b).2 = self ∧
       (sgLossOpt3Simplified_forwardS K (sgLossOpt3Simplified_forwardS K self a b).2 a b).1 =
         (sgLossOpt3Simplified_forwardS K self a b).1) ∧
    (∀ (K : Kernels) (self : RegLossM) (p1 p2 : List Ten),
       (regLoss_forwardS K self p1 p2).2 = self ∧
       (regLoss_forwardS K (regLoss_forwardS K self p1 p2).2 p1 p2).1 =
         (regLoss_forwardS K self p1 p2).1) ∧
    (∀ (K : Kernels) (self : TotalLossM) (cls hiddens : Ten) (p1 p2 : List Ten),
       (totalLoss_forwardS K self cls hiddens p1 p2).2 = self ∧
       (totalLoss_forwardS K (totalLoss_forwardS K self cls hiddens p1 p2).2 cls hiddens p1 p2).1 =
         (totalLoss_forwardS K self cls hiddens p1 p2).1) := by
  refine ⟨?_, ?_, ?_, ?_, ?_, ?_, ?_, ?_, ?_⟩ <;> intros <;> exact ⟨rfl, rfl⟩

/-- C10 counterexample to the literal claim: with `token_type_ids = None`
but a rank-2 `input_ids`, `UnsupSimCSE.forward` fails with
`NotImplementedError` from the shape check, not with the unbound-local
error. -/
theorem c10_counterexample :
    unsupSimCSE_forward K0 (fun t _ _ => t) (unsupSimCSE_init "bert" 1)
        ⟨[2, 2], [1, 2, 3, 4]⟩ ⟨[2, 2], [1, 2, 3, 4]⟩ none =
      .error (.notImplementedError msg_dim2) ∧
    unsupSimCSE_forward K0 (fun t _ _ => t) (unsupSimCSE_init "bert" 1)
        ⟨[2, 2], [1, 2, 3, 4]⟩ ⟨[2, 2], [1, 2, 3, 4]⟩ none ≠
      .error (.unboundLocalError "flat_token_type_ids") := by
  refine ⟨by rfl, ?_⟩
  intro h
  have h2 : (Except.error (PyErr.notImplementedError msg_dim2) : Except PyErr (ℚ × T2Q)) =
      Except.error (PyErr.unboundLocalError "flat_token_type_ids") := h
  simp at h2
